import Mathlib

/-!
Verification of the asynchronous job submission and result-retrieval
protocol of the vep_endpoint Lambda functions.

Python strings are embedded as `List Char`; machine-facing error codes and
static messages are Lean `String` literals.  Stateful interactions with the
object store and the inference backend are embedded as explicit outcome
values (one constructor per exception class the code distinguishes), and
logging is embedded as an explicit log-entry list in the result.
-/

namespace VepSpec

/-! ## Python string primitives over `List Char` -/

/-- Characters stripped by Python's `str.strip()` with no arguments. -/
def isPyWs (c : Char) : Bool :=
  c = ' ' || c = '\t' || c = '\n' || c = '\x0d' || c = '\x0b' || c = '\x0c'

/-- Python `s.strip()`: drop whitespace from both ends. -/
def stripWs (s : List Char) : List Char :=
  ((s.dropWhile isPyWs).reverse.dropWhile isPyWs).reverse

/-- Python `s.upper()` on ASCII input. -/
def upperL (s : List Char) : List Char :=
  s.map Char.toUpper

/-- Python `s.rstrip('/')`. -/
def rstripSlash (s : List Char) : List Char :=
  (s.reverse.dropWhile (fun c => c = '/')).reverse

/-- Python `s.strip('/')`. -/
def stripSlash (s : List Char) : List Char :=
  (s.dropWhile (fun c => c = '/')).reverse.dropWhile (fun c => c = '/') |>.reverse

/-- Python `s.split('/')` (splits on every slash, keeps empty pieces). -/
def splitOnSlash : List Char → List (List Char)
  | [] => [[]]
  | c :: rest =>
    if c = '/' then [] :: splitOnSlash rest
    else
      match splitOnSlash rest with
      | [] => [[c]]
      | h :: t => (c :: h) :: t

/-- Python `s.split('/', 1)` yielding both halves, or `none` when `s`
contains no slash (a single-element split). -/
def splitOnceSlash : List Char → Option (List Char × List Char)
  | [] => none
  | c :: rest =>
    if c = '/' then some ([], rest)
    else (splitOnceSlash rest).map (fun p => (c :: p.1, p.2))

/-- The four characters of the `.out` extension. -/
def dotOut : List Char := ['.', 'o', 'u', 't']

/-- Python `s.replace(".out", "")`: remove every (leftmost-first,
non-overlapping) occurrence of `.out`. -/
def replaceDotOut (s : List Char) : List Char :=
  match s with
  | [] => []
  | c :: rest =>
    if dotOut.isPrefixOf (c :: rest) then replaceDotOut (rest.drop 3)
    else c :: replaceDotOut rest
termination_by s.length
decreasing_by
  · simp [List.length_drop]; omega
  · simp

/-- The five characters of the `s3://` scheme marker. -/
def s3Scheme : List Char := ['s', '3', ':', '/', '/']

/-- Python `s.replace("s3://", "")`. -/
def replaceS3Scheme (s : List Char) : List Char :=
  match s with
  | [] => []
  | c :: rest =>
    if s3Scheme.isPrefixOf (c :: rest) then replaceS3Scheme (rest.drop 4)
    else c :: replaceS3Scheme rest
termination_by s.length
decreasing_by
  · simp [List.length_drop]; omega
  · simp

/-- Python `s.startswith("s3://")`. -/
def startsWithS3 (s : List Char) : Bool :=
  s3Scheme.isPrefixOf s

/-! ## Sequence validator (`validators.validate_amino_acid_sequence`) -/

/-- The argument passed to the validator: a Python string or any other
Python value (the code only distinguishes these two cases). -/
inductive SeqInput where
  | str (s : List Char)
  | notStr
deriving DecidableEq, Repr

/-- The validator's error messages, one constructor per `errors.append`
site in `validate_amino_acid_sequence`;  `invalidChars` carries the sorted
deduplicated offending characters interpolated into the message. -/
inductive SeqErr where
  | notAString
  | emptySeq
  | tooShort
  | tooLong
  | invalidChars (cs : List Char)
  | hasDigits
  | hasPunct
deriving DecidableEq, Repr

/-- `validators.ValidationResult`. -/
structure VResult where
  isValid : Bool
  errors : List SeqErr
deriving DecidableEq, Repr

/-- The 20 standard amino-acid letters (`valid_amino_acids`). -/
def validAminoAcids : List Char := "ACDEFGHIKLMNPQRSTVWY".toList

/-- The punctuation characters checked by the validator (`.,;:!?()[]` and
the two curly braces). -/
def punctChars : List Char := ".,;:!?()[]\x7b\x7d".toList

/-- Insert a character into an already sorted list. -/
def insertSorted (c : Char) : List Char → List Char
  | [] => [c]
  | d :: rest => if c ≤ d then c :: d :: rest else d :: insertSorted c rest

/-- Insertion sort on characters. -/
def sortChars : List Char → List Char
  | [] => []
  | c :: rest => insertSorted c (sortChars rest)

/-- Python `sorted(set(l))` for characters: deduplicate, then sort. -/
def sortedSet (l : List Char) : List Char :=
  sortChars l.dedup

/-- `validators.get_cleaned_sequence`: strip and uppercase, empty for
non-string input. -/
def getCleanedSequence : SeqInput → List Char
  | .str s => upperL (stripWs s)
  | .notStr => []

/-- `validators.validate_amino_acid_sequence`, embedded from the source:
non-string and empty inputs return early; all later checks accumulate. -/
def validateAminoAcidSequence (inp : SeqInput) : VResult :=
  match inp with
  | .notStr => ⟨false, [.notAString]⟩
  | .str s =>
    if s = [] then ⟨false, [.emptySeq]⟩
    else
      let cleaned := upperL (stripWs s)
      let e1 : List SeqErr := if cleaned.length < 1 then [.tooShort] else []
      let e2 : List SeqErr := if cleaned.length > 10000 then [.tooLong] else []
      let inv := sortedSet (cleaned.filter (fun c => ¬ c ∈ validAminoAcids))
      let e3 : List SeqErr := if inv ≠ [] then [.invalidChars inv] else []
      let e4 : List SeqErr := if cleaned.any Char.isDigit then [.hasDigits] else []
      let e5 : List SeqErr := if cleaned.any (fun c => c ∈ punctChars) then [.hasPunct] else []
      let errs := e1 ++ e2 ++ e3 ++ e4 ++ e5
      ⟨errs.isEmpty, errs⟩

/-! Spec-side violation categories for the validator, following the claim's
wording: structural checks (non-string; empty or whitespace-only; over
length) first, content checks (alphabet, digits, punctuation) after. -/

/-- A violation category named by the specification. -/
inductive VCat where
  | notString
  | emptyOrWs
  | overLen
  | badAlphabet
  | digitFound
  | punctFound
deriving DecidableEq, Repr

/-- Modelled from the spec's wording of the violation list: each category's
predicate evaluated independently (no short-circuiting), structural
categories first, content categories after. -/
def specViolations : SeqInput → List VCat
  | .notStr => [.notString]
  | .str s =>
    let cleaned := upperL (stripWs s)
    (if s = [] ∨ stripWs s = [] then [.emptyOrWs] else []) ++
    (if cleaned.length > 10000 then [.overLen] else []) ++
    (if cleaned.any (fun c => ¬ c ∈ validAminoAcids) then [.badAlphabet] else []) ++
    (if cleaned.any Char.isDigit then [.digitFound] else []) ++
    (if cleaned.any (fun c => c ∈ punctChars) then [.punctFound] else [])

/-- The category each concrete validator message reports. -/
def msgCategory : SeqErr → VCat
  | .notAString => .notString
  | .emptySeq => .emptyOrWs
  | .tooShort => .emptyOrWs
  | .tooLong => .overLen
  | .invalidChars _ => .badAlphabet
  | .hasDigits => .digitFound
  | .hasPunct => .punctFound

/-! ## Object-store path resolver

From `get_results.py`: the output key is
`f"{s3_output_prefix.rstrip('/')}/{output_id}.out"` (line 107, same shape
as `invoke_endpoint.py` lines 113-117), and the job id is recovered from a
key by taking the last path component and removing `.out`
(lines 85-86: `output_key.split("/")[-1]` then `.replace(".out", "")`). -/

/-- Resolve the output key for a job id under a configured output
location. -/
def resolveOutputKey (pfx jobId : List Char) : List Char :=
  rstripSlash pfx ++ '/' :: (jobId ++ dotOut)

/-- Extract the job id back out of a key: last path component with `.out`
removed. -/
def extractJobId (key : List Char) : List Char :=
  replaceDotOut ((splitOnSlash key).getLastD [])

/-- Lowercase hexadecimal digit. -/
def isHexDigit (c : Char) : Bool :=
  ('0' ≤ c && c ≤ '9') || ('a' ≤ c && c ≤ 'f')

/-- A valid job id: the canonical 8-4-4-4-12 lowercase UUID format
produced by `uuid.uuid4()` at submission time. -/
def isValidJobId (id : List Char) : Bool :=
  id.length = 36 &&
  (List.range 36).all (fun i =>
    if i = 8 || i = 13 || i = 18 || i = 23 then id.getD i ' ' = '-'
    else isHexDigit (id.getD i ' '))

/-! ## Store configuration validation (`_validate_s3_configuration`) -/

/-- One constructor per `errors.append` site in
`_validate_s3_configuration` (the two isinstance checks on the prefixes
cannot fire in this embedding, where both arguments are strings). -/
inductive CfgErr where
  | bucketEmptyOrNotString
  | bucketLength
  | bucketChars
  | samePfx
deriving DecidableEq, Repr

/-- Lowercase ASCII letter or digit. -/
def isLowerAlnum (c : Char) : Bool :=
  ('a' ≤ c && c ≤ 'z') || ('0' ≤ c && c ≤ '9')

/-- Tail of the bucket regex: zero or more `[a-z0-9-]` followed by a final
`[a-z0-9]`. -/
def bucketTail : List Char → Bool
  | [] => false
  | [c] => isLowerAlnum c
  | c :: rest => (isLowerAlnum c || c = '-') && bucketTail rest

/-- The core pattern `[a-z0-9][a-z0-9\-]*[a-z0-9]`. -/
def bucketReCore : List Char → Bool
  | [] => false
  | c :: rest => isLowerAlnum c && bucketTail rest

/-- `re.match(r"^[a-z0-9][a-z0-9\-]*[a-z0-9]$", s)`: in Python, `$`
(without `re.MULTILINE`) matches at the end of the string or just before a
single trailing newline, so the pattern also accepts a core match followed
by one final `\n`. -/
def matchBucketRe (s : List Char) : Bool :=
  bucketReCore s ||
  (match s.getLast? with
   | some c => c = '\n' && bucketReCore s.dropLast
   | none => false)

/-- The bucket-name error list of `_validate_s3_configuration` (the
`if`/`elif` chain produces at most one error). -/
def bucketNameErrors (bucket : List Char) : List CfgErr :=
  if bucket = [] then [.bucketEmptyOrNotString]
  else if bucket.length < 3 ∨ bucket.length > 63 then [.bucketLength]
  else if ¬ matchBucketRe bucket then [.bucketChars]
  else []

/-- Result dictionary of `_validate_s3_configuration`. -/
structure CfgVal where
  isValid : Bool
  errors : List CfgErr
deriving DecidableEq, Repr

/-- `_validate_s3_configuration(bucket, output_prefix, failure_prefix)`:
bucket-name checks, then prefix-collision check on the `/`-stripped
prefixes (skipped when either argument is empty). -/
def validateS3Configuration (bucket outPfx failPfx : List Char) : CfgVal :=
  let e2 : List CfgErr :=
    if outPfx ≠ [] ∧ failPfx ≠ [] ∧ stripSlash outPfx = stripSlash failPfx
    then [.samePfx] else []
  let errs := bucketNameErrors bucket ++ e2
  ⟨errs.isEmpty, errs⟩

/-- Two hyphens in a row somewhere in the list. -/
def hasDoubleHyphen : List Char → Bool
  | [] => false
  | [_] => false
  | a :: b :: rest => (a = '-' && b = '-') || hasDoubleHyphen (b :: rest)

/-- Modelled from the claim's wording: lowercase alphanumerics and single
hyphens, length 3 to 63, no leading or trailing hyphen, and no consecutive
hyphens. -/
def specBucketName (b : List Char) : Bool :=
  3 ≤ b.length && b.length ≤ 63 &&
  b.all (fun c => isLowerAlnum c || c = '-') &&
  (match b with | [] => true | c :: _ => c ≠ '-') &&
  (match b.reverse with | [] => true | c :: _ => c ≠ '-') &&
  ! hasDoubleHyphen b

/-- Modelled from the amended claim's wording: at least two characters,
first and last lowercase alphanumerics, every middle character a lowercase
alphanumeric or a hyphen (consecutive hyphens allowed). -/
def coreNameOk (b : List Char) : Bool :=
  2 ≤ b.length &&
  (match b.head? with | some c => isLowerAlnum c | none => false) &&
  (match b.getLast? with | some c => isLowerAlnum c | none => false) &&
  (b.drop 1).dropLast.all (fun c => isLowerAlnum c || c = '-')

/-! ## Object-store primitives as outcome values

`head_object` / `list_objects_v2` / `get_object` calls are embedded as the
outcome the store produces: a normal response, a `ClientError` carrying the
service error code, a `BotoCoreError`, or any other exception. -/

/-- Outcome of `head_object`. -/
inductive HeadOutcome where
  | ok (lastModified : Option String) (contentLength : Nat) (etag : String)
  | clientError (code msg : String)
  | botoCoreError (msg : String)
  | otherExn (msg : String)
deriving DecidableEq, Repr

/-- Outcome of `list_objects_v2` in `_validate_s3_bucket_access`. -/
inductive AccessOutcome where
  | ok
  | clientError (code msg : String)
  | botoCoreError (msg : String)
  | otherExn (msg : String)
deriving DecidableEq, Repr

/-- What `get_object` body content looks like after UTF-8 decoding, at the
granularity the code distinguishes: whitespace-only, valid JSON (with its
truthiness and dict-ness), or undecodable-as-JSON text. -/
inductive ParseOutcome where
  | emptyBody
  | jsonBody (truthy isDict : Bool)
  | textBody
deriving DecidableEq, Repr

/-- Outcome of `get_object` plus body read/decode. -/
inductive GetOutcome where
  | body (p : ParseOutcome)
  | clientError (code msg : String)
  | botoCoreError (msg : String)
  | decodeError (msg : String)
  | otherExn (msg : String)
deriving DecidableEq, Repr

/-- A structured event or logger call emitted along the control flow. -/
inductive LogEntry where
  | ev (name : String)
  | warnL (tag : String)
  | errL (tag : String)
deriving DecidableEq, Repr

/-- The dictionary `_check_s3_object_exists` returns. -/
structure CheckResult where
  exFlag : Bool
  errCode : Option String := none
  errMsg : Option String := none
  lastModified : Option String := none
  contentLength : Nat := 0
  etag : String := ""
deriving DecidableEq, Repr

/-- `_check_s3_object_exists`, embedded from the source: maps each store
outcome to the existence dictionary, together with the logger calls it
makes. -/
def checkS3ObjectExists (o : HeadOutcome) : CheckResult × List LogEntry :=
  match o with
  | .ok lm cl et => (⟨true, none, none, lm, cl, et⟩, [])
  | .clientError code msg =>
    if code = "404" ∨ code = "NoSuchKey" then
      (⟨false, none, none, none, 0, ""⟩, [])
    else if code = "403" ∨ code = "AccessDenied" then
      (⟨false, some "ACCESS_DENIED", some "Access denied to S3 object", none, 0, ""⟩,
       [.errL "head_access_denied"])
    else if code = "NoSuchBucket" then
      (⟨false, some "BUCKET_NOT_FOUND", some "S3 bucket does not exist", none, 0, ""⟩,
       [.errL "head_no_such_bucket"])
    else if code = "InvalidBucketName" ∨ code = "InvalidObjectName" then
      (⟨false, some "INVALID_S3_NAME", some "Invalid S3 bucket or object name", none, 0, ""⟩,
       [.errL "head_invalid_name"])
    else if code = "RequestTimeout" ∨ code = "ServiceUnavailable" ∨ code = "SlowDown" then
      (⟨false, some "S3_SERVICE_UNAVAILABLE", some "S3 service temporarily unavailable", none, 0, ""⟩,
       [.warnL "head_service_issue"])
    else
      (⟨false, some code, some (if msg = "" then "Unknown S3 error" else msg), none, 0, ""⟩,
       [.errL "head_other_client_error"])
  | .botoCoreError _ =>
    (⟨false, some "BOTO_CONNECTION_ERROR", some "Failed to connect to S3 service", none, 0, ""⟩,
     [.errL "head_botocore_error"])
  | .otherExn m =>
    (⟨false, some "UNKNOWN_ERROR", some m, none, 0, ""⟩, [.errL "head_unexpected_error"])

/-- The dictionary `_validate_s3_bucket_access` returns. -/
structure AccessResult where
  accessible : Bool
  errCode : Option String := none
  errMsg : Option String := none
deriving DecidableEq, Repr

/-- `_validate_s3_bucket_access`, embedded from the source. -/
def validateS3BucketAccess (o : AccessOutcome) : AccessResult :=
  match o with
  | .ok => ⟨true, none, none⟩
  | .clientError code msg =>
    if code = "NoSuchBucket" then
      ⟨false, some "BUCKET_NOT_FOUND", some "S3 bucket does not exist"⟩
    else if code = "403" ∨ code = "AccessDenied" then
      ⟨false, some "BUCKET_ACCESS_DENIED", some "Access denied to S3 bucket"⟩
    else if code = "InvalidBucketName" ∨ code = "InvalidRequest" then
      ⟨false, some "INVALID_BUCKET_NAME", some "Invalid S3 bucket name"⟩
    else
      ⟨false, some "S3_ACCESS_ERROR", some ("Cannot access S3 bucket: " ++ msg)⟩
  | .botoCoreError _ => ⟨false, some "S3_CONNECTION_ERROR", some "Failed to connect to S3 service"⟩
  | .otherExn m => ⟨false, some "UNKNOWN_S3_ERROR", some ("Unexpected error accessing S3 bucket: " ++ m)⟩

/-- The value `_retrieve_s3_results` returns on success, at the granularity
the code distinguishes: empty raw content, the parsed JSON, raw content
that parsed as falsy JSON, or raw non-JSON text with parsing info. -/
inductive RData where
  | emptyRaw
  | parsed
  | emptyJsonRaw
  | rawText
deriving DecidableEq, Repr

/-- `_retrieve_s3_results`, embedded from the source: returns the parsed
result or raises (`Except.error` carries the raised message). -/
def retrieveS3Results (o : GetOutcome) : Except String RData × List LogEntry :=
  match o with
  | .body .emptyBody => (.ok .emptyRaw, [.warnL "results_empty_file"])
  | .body (.jsonBody truthy _) =>
    if truthy then (.ok .parsed, [])
    else (.ok .emptyJsonRaw, [.warnL "results_empty_json"])
  | .body .textBody => (.ok .rawText, [.warnL "results_not_json"])
  | .clientError code msg =>
    if code = "404" ∨ code = "NoSuchKey" then
      (.error "Results file no longer exists (may have been deleted)", [.errL "results_disappeared"])
    else if code = "403" ∨ code = "AccessDenied" then
      (.error "Access denied to results file", [.errL "results_access_denied"])
    else if code = "InvalidObjectName" ∨ code = "InvalidBucketName" then
      (.error "Invalid S3 path for results file", [.errL "results_invalid_path"])
    else if code = "RequestTimeout" ∨ code = "ServiceUnavailable" then
      (.error "S3 service timeout - please retry", [.errL "results_timeout"])
    else
      (.error ("S3 error retrieving results: " ++ msg), [.errL "results_client_error"])
  | .botoCoreError _ =>
    (.error "Failed to connect to S3 service for results retrieval", [.errL "results_botocore_error"])
  | .decodeError _ =>
    (.error "Results file contains invalid character encoding", [.errL "results_decode_error"])
  | .otherExn m =>
    (.error ("Unexpected error retrieving results: " ++ m), [.errL "results_unexpected_error"])

/-- The structured diagnostics `_retrieve_s3_failure_details` returns, one
constructor per `return` site. -/
inductive FData where
  | emptyLog
  | jsonDict
  | jsonOther
  | textFormat
  | logMissing (code : String)
  | logAccessDenied (code : String)
  | logServiceTimeout (code : String)
  | s3RetrievalError (code msg : String)
  | botoConnError
  | encodingError (msg : String)
  | unexpectedError (msg : String)
deriving DecidableEq, Repr

/-- `_retrieve_s3_failure_details`, embedded from the source.  The Python
function would propagate an exception only if one escaped its handlers; the
`Except` result records that possibility so that `get_results`' guarding
`except` branch can be embedded too. -/
def retrieveFailureDetailsE (o : GetOutcome) : Except String FData × List LogEntry :=
  match o with
  | .body .emptyBody => (.ok .emptyLog, [.warnL "failure_empty_file"])
  | .body (.jsonBody _ isDict) =>
    if isDict then (.ok .jsonDict, []) else (.ok .jsonOther, [])
  | .body .textBody => (.ok .textFormat, [.warnL "failure_not_json"])
  | .clientError code msg =>
    if code = "404" ∨ code = "NoSuchKey" then
      (.ok (.logMissing code), [.errL "failure_log_disappeared"])
    else if code = "403" ∨ code = "AccessDenied" then
      (.ok (.logAccessDenied code), [.errL "failure_log_access_denied"])
    else if code = "RequestTimeout" ∨ code = "ServiceUnavailable" then
      (.ok (.logServiceTimeout code), [.errL "failure_log_timeout"])
    else
      (.ok (.s3RetrievalError code msg), [.errL "failure_log_client_error"])
  | .botoCoreError _ => (.ok .botoConnError, [.errL "failure_log_botocore_error"])
  | .decodeError m => (.ok (.encodingError m), [.errL "failure_log_decode_error"])
  | .otherExn m => (.ok (.unexpectedError m), [.errL "failure_log_unexpected_error"])

/-! ## `get_results` -/

/-- A required event field, as `validate_event_structure` distinguishes it:
missing, `None`, a string, or some other value. -/
inductive FieldVal where
  | absent
  | nullV
  | strV (s : List Char)
  | nonStrV
deriving DecidableEq, Repr

/-- Event-structure validation errors. -/
inductive EvtErr where
  | missingField
  | nullField
  | emptyField
deriving DecidableEq, Repr

/-- Environment-variable configuration read by `get_results`. -/
structure GRConfig where
  envBucket : Option (List Char) := none
  envOutputPfx : Option (List Char) := none
  envFailurePfx : Option (List Char) := none
deriving DecidableEq, Repr

/-- The store's behaviour for one request: client construction, bucket
listing, the two existence probes and the two content fetches. -/
structure S3Env where
  clientInit : Option String := none
  bucketAccess : AccessOutcome := .ok
  headOutput : HeadOutcome
  headFailure : HeadOutcome
  getOutput : GetOutcome := .body .textBody
  getFailure : GetOutcome := .body .textBody
deriving DecidableEq, Repr

/-- The response envelope of `get_results` (`_success_response` /
`_error_response` / `create_validation_error_response`), with the data and
details keys the code writes flattened into optional fields. -/
structure GRResp where
  success : Bool
  errorCode : Option String := none
  message : String := ""
  evtErrors : List EvtErr := []
  cfgErrors : List CfgErr := []
  dataStatus : Option String := none
  dataMessage : Option String := none
  results : Option RData := none
  completionTime : Option String := none
  checkIntervalSeconds : Option Nat := none
  s3Warnings : List String := []
  detailsStatus : Option String := none
  errorDetails : Option FData := none
  failureTime : Option String := none
  retrySuggested : Bool := false
  retryAfterSeconds : Option Nat := none
  outputId : List Char := []
  s3OutputPath : Option (List Char) := none
  s3FailurePath : Option (List Char) := none
  expectedSuccessPath : Option (List Char) := none
  expectedFailurePath : Option (List Char) := none
deriving DecidableEq, Repr

/-- Response plus the log entries emitted while producing it. -/
structure GROut where
  resp : GRResp
  logs : List LogEntry
deriving DecidableEq, Repr

/-- Prefix already-emitted log entries onto a partial result. -/
def prependLogs (l : List LogEntry) (o : GROut) : GROut :=
  ⟨o.resp, l ++ o.logs⟩

/-- `_error_response`: error envelope plus its `get_results_error` event. -/
def grErr (resp : GRResp) (lg : List LogEntry) : GROut :=
  ⟨resp, lg ++ [.ev "get_results_error"]⟩

/-- `f"s3://{bucket}/{key}"`. -/
def mkS3Uri (bucket key : List Char) : List Char :=
  s3Scheme ++ bucket ++ '/' :: key

/-- Default for `S3_OUTPUT_PREFIX`; also the literal passed to
`_validate_s3_configuration` at get_results.py line 118. -/
def defaultOutputPfx : List Char := "async-inference-output".toList

/-- Default for `S3_FAILURE_PREFIX`. -/
def defaultFailurePfx : List Char := "async-inference-failures".toList

/-- The error codes `get_results` treats as critical configuration errors
after a probe. -/
def grCritCodes : List String := ["ACCESS_DENIED", "BUCKET_NOT_FOUND", "INVALID_S3_NAME"]

/-- The error codes `get_results` treats as temporary service issues after
a probe. -/
def grTransCodes : List String := ["S3_SERVICE_UNAVAILABLE", "BOTO_CONNECTION_ERROR"]

/-- A transient store outcome for an existence probe: throttling or
timeout `ClientError` codes, or a `BotoCoreError` connection failure
(the conditions `_check_s3_object_exists` maps to `S3_SERVICE_UNAVAILABLE`
and `BOTO_CONNECTION_ERROR`). -/
def transientHead (o : HeadOutcome) : Bool :=
  match o with
  | .clientError c _ => c = "RequestTimeout" || c = "ServiceUnavailable" || c = "SlowDown"
  | .botoCoreError _ => true
  | _ => false

/-- The completed-results branch of `get_results` (output object exists). -/
def grOutputExistsBranch (env : S3Env) (s3Bucket outputKey outputId : List Char)
    (rs : CheckResult) : GROut :=
  match retrieveS3Results env.getOutput with
  | (.ok rd, lg) =>
    ⟨{ success := true, message := "Results retrieved successfully",
       dataStatus := some "completed", results := some rd,
       completionTime := rs.lastModified, outputId := outputId,
       s3OutputPath := some (mkS3Uri s3Bucket outputKey) },
     lg ++ [.ev "results_retrieved_success"]⟩
  | (.error e, lg) =>
    grErr { success := false, errorCode := some "RESULT_RETRIEVAL_ERROR",
            message := "Failed to retrieve results from S3: " ++ e,
            outputId := outputId, s3OutputPath := some (mkS3Uri s3Bucket outputKey) }
      (lg ++ [.errL "results_retrieval_failed"])

/-- The failure-probe half of `get_results` (output object absent): probe
the failure object, return failure diagnostics or in-progress. -/
def grFailureBranch (env : S3Env) (s3Bucket outputKey failureKey outputId : List Char)
    (rs : CheckResult) : GROut :=
  let chk := checkS3ObjectExists env.headFailure
  let fs := chk.1
  let flog : List LogEntry :=
    match fs.errCode with
    | some c =>
      if grCritCodes.contains c then [.errL "failure_path_config_error"]
      else if grTransCodes.contains c then [.warnL "failure_path_service_issue"]
      else [.warnL "failure_path_non_critical"]
    | none => []
  if fs.exFlag then
    match retrieveFailureDetailsE env.getFailure with
    | (.ok fd, lg) =>
      grErr { success := false, errorCode := some "PREDICTION_FAILED",
              message := "Async inference prediction failed",
              detailsStatus := some "failed", errorDetails := some fd,
              failureTime := fs.lastModified, outputId := outputId,
              s3FailurePath := some (mkS3Uri s3Bucket failureKey) }
        (chk.2 ++ flog ++ lg ++ [.ev "failure_detected"])
    | (.error _, lg) =>
      grErr { success := false, errorCode := some "FAILURE_RETRIEVAL_ERROR",
              message := "Prediction failed, but could not retrieve failure details",
              detailsStatus := some "failed", outputId := outputId,
              s3FailurePath := some (mkS3Uri s3Bucket failureKey) }
        (chk.2 ++ flog ++ lg ++ [.errL "failure_details_failed"])
  else
    let w1 : List String :=
      match rs.errCode with
      | some _ => ["Output path check: " ++ rs.errMsg.getD "Unknown error"]
      | none => []
    let w2 : List String :=
      match fs.errCode with
      | some _ => ["Failure path check: " ++ fs.errMsg.getD "Unknown error"]
      | none => []
    ⟨{ success := true, message := "Prediction is still in progress",
       dataStatus := some "in_progress",
       dataMessage := some "Prediction is still in progress. Please check again later.",
       checkIntervalSeconds := some 30, s3Warnings := w1 ++ w2, outputId := outputId,
       expectedSuccessPath := some (mkS3Uri s3Bucket outputKey),
       expectedFailurePath := some (mkS3Uri s3Bucket failureKey) },
     chk.2 ++ flog ++ [.ev "prediction_in_progress"]⟩

/-- The probe sequence of `get_results` after the configuration stage:
check the output object first, handling critical and transient store
errors, then dispatch on existence. -/
def grProbe (env : S3Env) (s3Bucket outputKey failureKey outputId : List Char) : GROut :=
  let startLog : List LogEntry := [.ev "s3_result_check_started"]
  let chk := checkS3ObjectExists env.headOutput
  let rs := chk.1
  let critical := match rs.errCode with | some c => grCritCodes.contains c | none => false
  let transient := match rs.errCode with | some c => grTransCodes.contains c | none => false
  let warnLog : List LogEntry :=
    match rs.errCode with
    | some c =>
      if grCritCodes.contains c ∨ grTransCodes.contains c then []
      else [.warnL "output_path_non_critical"]
    | none => []
  if critical then
    grErr { success := false, errorCode := rs.errCode,
            message := "S3 configuration error: " ++ rs.errMsg.getD "Unknown error",
            outputId := outputId }
      (startLog ++ chk.2)
  else if transient then
    grErr { success := false, errorCode := rs.errCode,
            message := "S3 service temporarily unavailable: " ++ rs.errMsg.getD "Unknown error",
            retrySuggested := true, retryAfterSeconds := some 30,
            outputId := outputId }
      (startLog ++ chk.2)
  else if rs.exFlag then
    prependLogs (startLog ++ chk.2 ++ warnLog)
      (grOutputExistsBranch env s3Bucket outputKey outputId rs)
  else
    prependLogs (startLog ++ chk.2 ++ warnLog)
      (grFailureBranch env s3Bucket outputKey failureKey outputId rs)

/-- Configuration validation, client construction and bucket-access stages
of `get_results`, then the probe sequence.  Note the call site passes the
literal default output location name to `_validate_s3_configuration`
(get_results.py line 118), not the configured output location. -/
def grConfigAndProbe (cfg : GRConfig) (env : S3Env)
    (s3Bucket outputKey outputId : List Char) : GROut :=
  let failPfx := cfg.envFailurePfx.getD defaultFailurePfx
  let failureKey := resolveOutputKey failPfx outputId
  let cv := validateS3Configuration s3Bucket defaultOutputPfx failPfx
  if ¬ cv.isValid then
    grErr { success := false, errorCode := some "S3_CONFIGURATION_ERROR",
            message := "S3 configuration invalid", cfgErrors := cv.errors } []
  else
    match env.clientInit with
    | some _ =>
      grErr { success := false, errorCode := some "CLIENT_INITIALIZATION_ERROR",
              message := "Failed to initialize S3 client" } []
    | none =>
      let av := validateS3BucketAccess env.bucketAccess
      if ¬ av.accessible then
        grErr { success := false, errorCode := av.errCode,
                message := av.errMsg.getD "" } []
      else
        grProbe env s3Bucket outputKey failureKey outputId

/-- The body of `get_results` once a string `output_id` is in hand: S3-URI
handles are decomposed into bucket and key and the job id re-extracted;
bare ids resolve against the configured bucket and output location. -/
def grMainStr (cfg : GRConfig) (env : S3Env) (outputId0 : List Char) : GROut :=
  if startsWithS3 outputId0 then
    match splitOnceSlash (replaceS3Scheme outputId0) with
    | none =>
      grErr { success := false, errorCode := some "INVALID_S3_PATH",
              message := "Invalid S3 path format. Expected: s3://bucket/key" } []
    | some (b, k) =>
      grConfigAndProbe cfg env b k (extractJobId k)
  else
    let bucket := cfg.envBucket.getD []
    if bucket = [] then
      grErr { success := false, errorCode := some "CONFIGURATION_ERROR",
              message := "S3 bucket name not configured. Check S3_BUCKET_NAME environment variable." } []
    else
      let outPfx := cfg.envOutputPfx.getD defaultOutputPfx
      grConfigAndProbe cfg env bucket (resolveOutputKey outPfx outputId0) outputId0

/-- `get_results`, embedded from the source. -/
def getResults (cfg : GRConfig) (env : S3Env) (event : FieldVal) : GROut :=
  let logs0 : List LogEntry := [.ev "get_results_started"]
  match event with
  | .absent =>
    ⟨{ success := false, errorCode := some "INVALID_EVENT_STRUCTURE",
       message := "Input validation failed", evtErrors := [.missingField] }, logs0⟩
  | .nullV =>
    ⟨{ success := false, errorCode := some "INVALID_EVENT_STRUCTURE",
       message := "Input validation failed", evtErrors := [.nullField] }, logs0⟩
  | .nonStrV =>
    prependLogs logs0
      (grErr { success := false, errorCode := some "GET_RESULTS_ERROR",
               message := "Unexpected error in get_results" }
        [.errL "get_results_unexpected"])
  | .strV s =>
    if stripWs s = [] then
      ⟨{ success := false, errorCode := some "INVALID_EVENT_STRUCTURE",
         message := "Input validation failed", evtErrors := [.emptyField] }, logs0⟩
    else
      prependLogs logs0 (grMainStr cfg env s)

/-! ## `invoke_endpoint` -/

/-- No newline among the characters of `s` at positions `[a, b)`. -/
def noNL (s : List Char) (a b : Nat) : Bool :=
  ((s.drop a).take (b - a)).all (fun c => ¬ c = '\n')

/-- The `.out` literal occurs at position `j`. -/
def dotOutAt (s : List Char) (j : Nat) : Bool :=
  dotOut.isPrefixOf (s.drop j)

/-- A slash at position `i` from which the rest of the pattern can match:
some later `.out` occurrence with no newline in the capture between them
(Python's `.` does not match `\n`). -/
def goodSlashAt (s : List Char) (i : Nat) : Bool :=
  s.getD i ' ' = '/' &&
  (List.range s.length).any (fun j => decide (i < j) && dotOutAt s j && noNL s (i + 1) j)

/-- The Python regex search `re.search(r".*\/(.*)\.out", loc)`: `none` when
the pattern occurs nowhere (the code's `.group(1)` would then raise).  A
match needs a slash followed by a later `.out` with no newline between
them, since `.` does not match `\n`.  The capture follows `re.search`'s
leftmost-start then greedy rule: starting from the first such slash, take
the last such slash in the same newline-free stretch, then the last
reachable `.out` after it. -/
def reSearchDotOut (s : List Char) : Option (List Char) :=
  let good := (List.range s.length).filter (goodSlashAt s)
  match good.head? with
  | none => none
  | some i0 =>
    let iStar := (good.filter (fun i => noNL s i0 (i + 1))).getLastD i0
    let jStar := ((List.range s.length).filter
      (fun j => decide (iStar < j) && dotOutAt s j && noNL s (iStar + 1) j)).getLastD 0
    some ((s.drop (iStar + 1)).take (jStar - (iStar + 1)))

/-- The four characters of the `.json` extension, without the dot. -/
def jsonExt : List Char := ['j', 's', 'o', 'n']

/-- Default for `S3_INPUT_PREFIX`. -/
def defaultInputPfx : List Char := "async-inference-input".toList

/-- Environment-variable configuration read by `invoke_endpoint`. -/
structure IEConfig where
  envEndpoint : Option (List Char) := none
  envBucket : Option (List Char) := none
  envInputPfx : Option (List Char) := none
  envOutputPfx : Option (List Char) := none
deriving DecidableEq, Repr

/-- Outcome of the `put_object` upload of the input payload. -/
inductive PutOutcome where
  | ok
  | clientError (code msg : String)
  | otherExn (msg : String)
deriving DecidableEq, Repr

/-- Outcome of `invoke_endpoint_async`: the backend's response fields
(`InferenceId`, `OutputLocation`), or the exception it raised. -/
inductive InvokeOutcome where
  | ok (inferenceId outputLocation : Option (List Char))
  | clientError (code msg : String)
  | botoCoreError (msg : String)
  | otherExn (msg : String)
deriving DecidableEq, Repr

/-- The collaborators' behaviour for one submission. -/
structure IEEnv where
  clientInit : Option String := none
  putInput : PutOutcome := .ok
  invokeAsync : InvokeOutcome
deriving DecidableEq, Repr

/-- The response envelope of `invoke_endpoint`. -/
structure IEResp where
  success : Bool
  errorCode : Option String := none
  message : String := ""
  evtErrors : List EvtErr := []
  seqErrors : List SeqErr := []
  outputId : Option (List Char) := none
  s3OutputPath : Option (List Char) := none
  sequenceLength : Option Nat := none
deriving DecidableEq, Repr

/-- `invoke_endpoint` after sequence validation: configuration and client
checks, input upload, asynchronous invocation and response parsing. -/
def ieSubmit (cfg : IEConfig) (env : IEEnv) (raw : SeqInput) (genId : List Char) : IEResp :=
  let sv := validateAminoAcidSequence raw
  if ¬ sv.isValid then
    { success := false, errorCode := some "INVALID_SEQUENCE",
      message := "Input validation failed", seqErrors := sv.errors }
  else if cfg.envEndpoint.getD [] = [] then
    { success := false, errorCode := some "CONFIGURATION_ERROR",
      message := "SageMaker endpoint name not configured. Check SAGEMAKER_ENDPOINT_NAME environment variable." }
  else if cfg.envBucket.getD [] = [] then
    { success := false, errorCode := some "CONFIGURATION_ERROR",
      message := "S3 bucket name not configured. Check S3_BUCKET_NAME environment variable." }
  else
    match env.clientInit with
    | some _ =>
      { success := false, errorCode := some "CLIENT_INITIALIZATION_ERROR",
        message := "Failed to initialize AWS clients" }
    | none =>
      let cleaned := getCleanedSequence raw
      let bucket := cfg.envBucket.getD []
      let outPfx := cfg.envOutputPfx.getD defaultOutputPfx
      let s3OutPath := mkS3Uri bucket (resolveOutputKey outPfx genId)
      match env.putInput with
      | .clientError _ m =>
        { success := false, errorCode := some "S3_UPLOAD_ERROR",
          message := "Failed to upload input data to S3: " ++ m }
      | .otherExn m =>
        { success := false, errorCode := some "S3_UPLOAD_ERROR",
          message := "Unexpected error uploading input data to S3: " ++ m }
      | .ok =>
        match env.invokeAsync with
        | .ok iid oloc =>
          let effLoc := oloc.getD s3OutPath
          match reSearchDotOut effLoc with
          | none =>
            { success := false, errorCode := some "INVOCATION_ERROR",
              message := "Unexpected error during endpoint invocation" }
          | some oid =>
            if iid.getD [] = [] then
              { success := false, errorCode := some "SAGEMAKER_RESPONSE_ERROR",
                message := "SageMaker response missing inference ID" }
            else
              { success := true, message := "Async inference request submitted successfully",
                outputId := some oid, s3OutputPath := some effLoc,
                sequenceLength := some cleaned.length }
        | .clientError code m =>
          if code = "ValidationException" then
            { success := false, errorCode := some "SAGEMAKER_VALIDATION_ERROR",
              message := "SageMaker validation error: " ++ m }
          else if code = "ModelError" then
            { success := false, errorCode := some "SAGEMAKER_MODEL_ERROR",
              message := "Model error occurred during invocation" }
          else if code = "InternalFailure" then
            { success := false, errorCode := some "SAGEMAKER_INTERNAL_ERROR",
              message := "SageMaker internal error occurred" }
          else if code = "ServiceUnavailable" then
            { success := false, errorCode := some "SAGEMAKER_SERVICE_UNAVAILABLE",
              message := "SageMaker service is temporarily unavailable" }
          else
            { success := false, errorCode := some "SAGEMAKER_ERROR",
              message := "SageMaker error: " ++ m }
        | .botoCoreError _ =>
          { success := false, errorCode := some "AWS_CONNECTION_ERROR",
            message := "Failed to connect to AWS services" }
        | .otherExn m =>
          { success := false, errorCode := some "INVOCATION_ERROR",
            message := "Unexpected error during endpoint invocation: " ++ m }

/-- `invoke_endpoint`, embedded from the source (`genId` stands for the
freshly generated `uuid.uuid4()` value). -/
def invokeEndpoint (cfg : IEConfig) (env : IEEnv) (event : FieldVal) (genId : List Char) : IEResp :=
  match event with
  | .absent =>
    { success := false, errorCode := some "INVALID_EVENT_STRUCTURE",
      message := "Input validation failed", evtErrors := [.missingField] }
  | .nullV =>
    { success := false, errorCode := some "INVALID_EVENT_STRUCTURE",
      message := "Input validation failed", evtErrors := [.nullField] }
  | .strV s =>
    if stripWs s = [] then
      { success := false, errorCode := some "INVALID_EVENT_STRUCTURE",
        message := "Input validation failed", evtErrors := [.emptyField] }
    else ieSubmit cfg env (.str s) genId
  | .nonStrV => ieSubmit cfg env .notStr genId

/-! ## Polling client (`examples/invoke_lambda.py`, main loop) -/

/-- One `get_results` response as the polling loop inspects it: a success
envelope carrying a data status, a success envelope without data, or an
error envelope with its code. -/
inductive LoopResp where
  | successData (status : Option String)
  | successNoData
  | errorResp (code : String)
deriving DecidableEq, Repr

/-- Terminal states of the polling loop: results ready, prediction failed,
attempts exhausted (the explicit timeout outcome), or polling stopped on a
non-retryable error. -/
inductive PollOutcome where
  | completed
  | failed
  | timedOut
  | stopped (code : String)
deriving DecidableEq, Repr

/-- The loop body from attempt number `attempt` on, also counting the
retrieval calls made: `while attempt <= max_attempts` with `break` on a
terminal status or a non-retryable error, and the timeout outcome when the
loop exhausts its attempts. -/
def pollFrom (retrieve : Nat → LoopResp) (maxAttempts attempt calls : Nat) :
    PollOutcome × Nat :=
  if _h : maxAttempts < attempt then (.timedOut, calls)
  else
    match retrieve attempt with
    | .successData st =>
      if st = some "completed" then (.completed, calls + 1)
      else if st = some "failed" then (.failed, calls + 1)
      else pollFrom retrieve maxAttempts (attempt + 1) (calls + 1)
    | .successNoData => pollFrom retrieve maxAttempts (attempt + 1) (calls + 1)
    | .errorResp c =>
      if c = "S3_SERVICE_UNAVAILABLE" ∨ c = "BOTO_CONNECTION_ERROR" then
        pollFrom retrieve maxAttempts (attempt + 1) (calls + 1)
      else (.stopped c, calls + 1)
termination_by maxAttempts + 1 - attempt
decreasing_by all_goals omega

/-- The polling loop: attempts start at 1. -/
def pollLoop (retrieve : Nat → LoopResp) (maxAttempts : Nat) : PollOutcome × Nat :=
  pollFrom retrieve maxAttempts 1 0

/-! ## Supporting lemmas -/

lemma insertSorted_ne_nil (c : Char) (l : List Char) : insertSorted c l ≠ [] := by
  cases l with
  | nil => simp [insertSorted]
  | cons d rest =>
    simp only [insertSorted]
    split <;> simp

lemma sortChars_eq_nil (l : List Char) : sortChars l = [] ↔ l = [] := by
  cases l with
  | nil => simp [sortChars]
  | cons c rest =>
    simp only [sortChars]
    constructor
    · intro h
      exact absurd h (insertSorted_ne_nil c (sortChars rest))
    · intro h
      exact absurd h (by simp)

lemma sortedSet_eq_nil (l : List Char) : sortedSet l = [] ↔ l = [] := by
  unfold sortedSet
  rw [sortChars_eq_nil, List.dedup_eq_nil]

lemma sortedSet_filter_ne_nil (p : Char → Bool) (l : List Char) :
    (sortedSet (l.filter p) ≠ []) ↔ l.any p = true := by
  rw [Ne, sortedSet_eq_nil, List.filter_eq_nil_iff, List.any_eq_true]
  push_neg
  simp

lemma map_msg_ite (c : Prop) [Decidable c] (a : SeqErr) :
    List.map msgCategory (if c then [a] else []) = if c then [msgCategory a] else [] := by
  split <;> rfl

lemma bucketTail_eq (l : List Char) :
    bucketTail l = ((match l.getLast? with
      | some c => isLowerAlnum c
      | none => false) &&
      l.dropLast.all (fun c => isLowerAlnum c || c = '-')) := by
  induction l with
  | nil => rfl
  | cons c rest ih =>
    cases rest with
    | nil => simp [bucketTail]
    | cons d rest2 =>
      simp only [bucketTail, ih, List.getLast?_cons_cons]
      rw [List.dropLast_cons₂, List.all_cons]
      cases isLowerAlnum c || c = '-' <;>
        cases (d :: rest2).getLast? <;> simp [Bool.and_left_comm, Bool.and_comm]

lemma bucketReCore_eq (b : List Char) : bucketReCore b = coreNameOk b := by
  cases b with
  | nil => rfl
  | cons c rest =>
    cases rest with
    | nil => simp [bucketReCore, bucketTail, coreNameOk]
    | cons d rest2 =>
      have hlen : 2 ≤ rest2.length + 1 + 1 := by omega
      simp only [bucketReCore, bucketTail_eq, coreNameOk, List.getLast?_cons_cons,
        List.head?_cons, List.length_cons, List.drop_one, List.tail_cons]
      simp [hlen, Bool.and_assoc]

lemma matchBucketRe_eq (b : List Char) :
    (matchBucketRe b = true) ↔
      (coreNameOk b = true ∨ (b.getLast? = some '\n' ∧ coreNameOk b.dropLast = true)) := by
  unfold matchBucketRe
  simp only [bucketReCore_eq]
  cases hL : b.getLast? with
  | none => simp
  | some c => simp [hL]

lemma splitOnSlash_ne_nil (s : List Char) : splitOnSlash s ≠ [] := by
  induction s with
  | nil => simp [splitOnSlash]
  | cons c rest ih =>
    simp only [splitOnSlash]
    split
    · simp
    · split
      · simp
      · simp

lemma getLastD_indep {α : Type} (l : List α) (h : l ≠ []) (d d' : α) :
    l.getLastD d = l.getLastD d' := by
  cases l with
  | nil => exact absurd rfl h
  | cons b t => rw [List.getLastD_cons, List.getLastD_cons]

lemma splitOnSlash_no_slash (b : List Char) (h : '/' ∉ b) : splitOnSlash b = [b] := by
  induction b with
  | nil => rfl
  | cons c rest ih =>
    have hc : ¬ c = '/' := fun hh => h (hh ▸ List.mem_cons_self c rest)
    have hr : '/' ∉ rest := fun hh => h (List.mem_cons_of_mem c hh)
    simp only [splitOnSlash, if_neg hc, ih hr]

lemma splitOnSlash_len2 (s : List Char) (h : '/' ∈ s) : 2 ≤ (splitOnSlash s).length := by
  induction s with
  | nil => simp at h
  | cons c rest ih =>
    simp only [splitOnSlash]
    by_cases hc : c = '/'
    · rw [if_pos hc]
      have : 1 ≤ (splitOnSlash rest).length := by
        cases hsp : splitOnSlash rest with
        | nil => exact absurd hsp (splitOnSlash_ne_nil rest)
        | cons a t => simp
      simp only [List.length_cons]
      omega
    · rw [if_neg hc]
      have hr : '/' ∈ rest := by
        rcases List.mem_cons.mp h with h1 | h1
        · exact absurd h1.symm hc
        · exact h1
      have h2 := ih hr
      cases hsp : splitOnSlash rest with
      | nil => exact absurd hsp (splitOnSlash_ne_nil rest)
      | cons a t =>
        rw [hsp] at h2
        simpa using h2

lemma lastComp_append (a b : List Char) (h : '/' ∉ b) :
    (splitOnSlash (a ++ '/' :: b)).getLastD [] = b := by
  induction a with
  | nil =>
    have e : splitOnSlash ('/' :: b) = [] :: splitOnSlash b := by
      simp [splitOnSlash]
    rw [List.nil_append, e, List.getLastD_cons, splitOnSlash_no_slash b h]
    rfl
  | cons c a' ih =>
    simp only [List.cons_append, splitOnSlash]
    by_cases hc : c = '/'
    · rw [if_pos hc, List.getLastD_cons]
      exact ih
    · rw [if_neg hc]
      have hmem : '/' ∈ a' ++ '/' :: b := by
        apply List.mem_append_right
        exact List.mem_cons_self _ _
      cases hsp : splitOnSlash (a' ++ '/' :: b) with
      | nil => exact absurd hsp (splitOnSlash_ne_nil _)
      | cons hh t =>
        have hlen := splitOnSlash_len2 _ hmem
        rw [hsp] at hlen
        have ht : t ≠ [] := by
          intro hte
          rw [hte] at hlen
          simp at hlen
        rw [List.getLastD_cons]
        have e1 : t.getLastD (c :: hh) = t.getLastD hh := getLastD_indep t ht _ _
        rw [e1, ← List.getLastD_cons [] hh t, ← hsp]
        exact ih

lemma replaceDotOut_append (id : List Char) (h : '.' ∉ id) :
    replaceDotOut (id ++ dotOut) = id := by
  induction id with
  | nil =>
    rw [List.nil_append, replaceDotOut.eq_def]
    norm_num [dotOut, List.isPrefixOf]
    rw [replaceDotOut.eq_def]
  | cons c rest ih =>
    have hc : ¬ c = '.' := fun hh => h (hh ▸ List.mem_cons_self c rest)
    have hr : '.' ∉ rest := fun hh => h (List.mem_cons_of_mem c hh)
    rw [List.cons_append, replaceDotOut.eq_def]
    have hpre : dotOut.isPrefixOf (c :: (rest ++ dotOut)) = false := by
      simp [dotOut, List.isPrefixOf]
      intro hh
      exact absurd hh.symm hc
    simp only [hpre, Bool.false_eq_true, if_false]
    rw [ih hr]

lemma validJobId_mem (id : List Char) (h : isValidJobId id = true) :
    ∀ c ∈ id, c ≠ '.' ∧ c ≠ '/' := by
  unfold isValidJobId at h
  rw [Bool.and_eq_true] at h
  obtain ⟨hlen, hall⟩ := h
  rw [decide_eq_true_eq] at hlen
  intro c hc
  obtain ⟨n, hn, he⟩ := List.mem_iff_getElem.mp hc
  have hn36 : n < 36 := by omega
  have hcond := List.all_eq_true.mp hall n (List.mem_range.mpr hn36)
  rw [List.getD_eq_getElem id ' ' hn, he] at hcond
  constructor
  · intro heq
    subst heq
    revert hcond
    split <;> intro hcond
    · exact absurd hcond (by decide)
    · exact absurd hcond (by decide)
  · intro heq
    subst heq
    revert hcond
    split <;> intro hcond
    · exact absurd hcond (by decide)
    · exact absurd hcond (by decide)

lemma extractJobId_resolve (pfx id : List Char) (h : isValidJobId id = true) :
    extractJobId (resolveOutputKey pfx id) = id := by
  have hm := validJobId_mem id h
  have hslash : '/' ∉ id ++ dotOut := by
    intro hmem
    rcases List.mem_append.mp hmem with h1 | h1
    · exact (hm _ h1).2 rfl
    · simp [dotOut] at h1
  have hdot : '.' ∉ id := fun hmem => (hm _ hmem).1 rfl
  unfold extractJobId resolveOutputKey
  rw [lastComp_append _ _ hslash, replaceDotOut_append _ hdot]

lemma getResults_stage (cfg : GRConfig) (env : S3Env) (id b : List Char)
    (hid : ¬ stripWs id = []) (hs3 : startsWithS3 id = false)
    (hb : cfg.envBucket = some b) (hb0 : ¬ b = [])
    (hcv : (validateS3Configuration b defaultOutputPfx
      (cfg.envFailurePfx.getD defaultFailurePfx)).isValid = true)
    (hci : env.clientInit = none)
    (hba : env.bucketAccess = .ok) :
    getResults cfg env (.strV id) =
      prependLogs [.ev "get_results_started"]
        (grProbe env b (resolveOutputKey (cfg.envOutputPfx.getD defaultOutputPfx) id)
          (resolveOutputKey (cfg.envFailurePfx.getD defaultFailurePfx) id) id) := by
  unfold getResults grMainStr grConfigAndProbe
  simp [hid, hs3, hb, hb0, hci, hba, hcv, validateS3BucketAccess]

/-! ## Claim theorems -/

/-- C4: a single call to the sequence validator surfaces every violation
found, in deterministic order: the categories of the returned error list
are exactly the independently evaluated violation categories of the input,
structural checks first and content checks after. -/
theorem validator_accumulates_all (inp : SeqInput) :
    (validateAminoAcidSequence inp).errors.map msgCategory = specViolations inp := by
  cases inp with
  | notStr => rfl
  | str s =>
    by_cases hs : s = []
    · subst hs; rfl
    · by_cases hw : stripWs s = []
      · have hc : upperL (stripWs s) = [] := by rw [hw]; rfl
        simp [validateAminoAcidSequence, specViolations, hs, hw, hc, upperL, msgCategory,
          sortedSet, sortChars]
      · have hc : upperL (stripWs s) ≠ [] := fun h => hw (List.map_eq_nil_iff.mp h)
        have hlen : ¬ (upperL (stripWs s)).length < 1 := by
          intro h
          exact hc (List.length_eq_zero.mp (by omega))
        have h1 : ¬ (s = [] ∨ stripWs s = []) := by
          rintro (h | h)
          · exact hs h
          · exact hw h
        simp only [validateAminoAcidSequence, specViolations, if_neg hs, List.map_append,
          map_msg_ite, msgCategory, sortedSet_filter_ne_nil]
        rw [if_neg hlen, if_neg h1]

/-- C5: for any valid job id, resolving the output path, extracting the
job id back from it (last path component with the `.out` suffix removed)
and resolving again yields the original output path. -/
theorem path_round_trip (pfx id : List Char) (h : isValidJobId id = true) :
    resolveOutputKey pfx (extractJobId (resolveOutputKey pfx id)) = resolveOutputKey pfx id := by
  rw [extractJobId_resolve pfx id h]

/-- Witness for C5 at a concrete UUID. -/
theorem path_round_trip_check :
    isValidJobId "123e4567-e89b-12d3-a456-426614174000".toList = true ∧
    resolveOutputKey "async-inference-output".toList
        (extractJobId (resolveOutputKey "async-inference-output".toList
          "123e4567-e89b-12d3-a456-426614174000".toList)) =
      resolveOutputKey "async-inference-output".toList
        "123e4567-e89b-12d3-a456-426614174000".toList :=
  ⟨by decide, path_round_trip _ _ (by decide)⟩

/-- C2: when neither the output nor the failure object exists (both
existence probes yield the store's not-found answer), and the
configuration and the store connection are sound, `get_results` returns a
success envelope with status `in_progress` and a suggested
`check_interval_seconds`, never an error. -/
theorem unknown_job_in_progress (cfg : GRConfig) (env : S3Env) (id b : List Char)
    (co mo cf mf : String)
    (hid : ¬ stripWs id = []) (hs3 : startsWithS3 id = false)
    (hb : cfg.envBucket = some b) (hb0 : ¬ b = [])
    (hcv : (validateS3Configuration b defaultOutputPfx
      (cfg.envFailurePfx.getD defaultFailurePfx)).isValid = true)
    (hci : env.clientInit = none)
    (hba : env.bucketAccess = .ok)
    (hho : env.headOutput = .clientError co mo) (hco : co = "404" ∨ co = "NoSuchKey")
    (hhf : env.headFailure = .clientError cf mf) (hcf : cf = "404" ∨ cf = "NoSuchKey") :
    (getResults cfg env (.strV id)).resp.success = true ∧
    (getResults cfg env (.strV id)).resp.dataStatus = some "in_progress" ∧
    (getResults cfg env (.strV id)).resp.checkIntervalSeconds = some 30 ∧
    (getResults cfg env (.strV id)).resp.errorCode = none := by
  rw [getResults_stage cfg env id b hid hs3 hb hb0 hcv hci hba]
  have hrs : checkS3ObjectExists env.headOutput = (⟨false, none, none, none, 0, ""⟩, []) := by
    rw [hho]
    rcases hco with h | h <;> simp [checkS3ObjectExists, h]
  have hfs : checkS3ObjectExists env.headFailure = (⟨false, none, none, none, 0, ""⟩, []) := by
    rw [hhf]
    rcases hcf with h | h <;> simp [checkS3ObjectExists, h]
  simp [grProbe, grFailureBranch, prependLogs, hrs, hfs]

/-- Witness for C2 at a concrete environment. -/
theorem unknown_job_in_progress_check :
    (getResults ⟨some "sample-bucket".toList, none, none⟩
        { headOutput := .clientError "404" "", headFailure := .clientError "404" "" }
        (.strV "never-submitted".toList)).resp.success = true ∧
    (getResults ⟨some "sample-bucket".toList, none, none⟩
        { headOutput := .clientError "404" "", headFailure := .clientError "404" "" }
        (.strV "never-submitted".toList)).resp.dataStatus = some "in_progress" ∧
    (getResults ⟨some "sample-bucket".toList, none, none⟩
        { headOutput := .clientError "404" "", headFailure := .clientError "404" "" }
        (.strV "never-submitted".toList)).resp.checkIntervalSeconds = some 30 ∧
    (getResults ⟨some "sample-bucket".toList, none, none⟩
        { headOutput := .clientError "404" "", headFailure := .clientError "404" "" }
        (.strV "never-submitted".toList)).resp.errorCode = none :=
  unknown_job_in_progress _ _ _ _ _ _ _ _ (by decide) (by decide) rfl (by decide)
    (by decide) rfl rfl rfl (Or.inl rfl) rfl (Or.inl rfl)

/-- C1 amended: when the output object exists, the result is derived from
the output object alone (completed when its content is retrievable) and
the failure object is never consulted; nothing in the emitted response or
logs depends on the failure object, so no inconsistency is logged when
both objects exist. -/
theorem output_takes_precedence (cfg : GRConfig) (env : S3Env) (id b : List Char)
    (lm : Option String) (cl : Nat) (et : String)
    (hid : ¬ stripWs id = []) (hs3 : startsWithS3 id = false)
    (hb : cfg.envBucket = some b) (hb0 : ¬ b = [])
    (hcv : (validateS3Configuration b defaultOutputPfx
      (cfg.envFailurePfx.getD defaultFailurePfx)).isValid = true)
    (hci : env.clientInit = none)
    (hba : env.bucketAccess = .ok)
    (hho : env.headOutput = .ok lm cl et) :
    (∀ hf gf, getResults cfg { env with headFailure := hf, getFailure := gf } (.strV id) =
        getResults cfg env (.strV id)) ∧
    (∀ rd lg, retrieveS3Results env.getOutput = (.ok rd, lg) →
      (getResults cfg env (.strV id)).resp.success = true ∧
      (getResults cfg env (.strV id)).resp.dataStatus = some "completed" ∧
      (getResults cfg env (.strV id)).resp.results = some rd) := by
  have hstage := getResults_stage cfg env id b hid hs3 hb hb0 hcv hci hba
  constructor
  · intro hf gf
    have hstage' := getResults_stage cfg { env with headFailure := hf, getFailure := gf } id b
      hid hs3 hb hb0 hcv hci hba
    rw [hstage, hstage']
    simp [grProbe, checkS3ObjectExists, hho, grOutputExistsBranch]
  · intro rd lg hr
    rw [hstage]
    simp [grProbe, checkS3ObjectExists, hho, grOutputExistsBranch, hr, prependLogs]

/-- C1 counterexample: with both the output and the failure object
present, the full output of `get_results` (response and every log entry)
is identical to the run where the failure object is absent, so the
coexistence anomaly is not logged anywhere; and when the output object
exists but its content fetch fails, the result is a retrieval error, not
a completed result. -/
theorem output_takes_precedence_counterexample :
    (getResults ⟨some "sample-bucket".toList, none, none⟩
        { headOutput := .ok (some "t1") 5 "e1", headFailure := .ok (some "t2") 7 "e2",
          getOutput := .body (.jsonBody true true), getFailure := .body (.jsonBody true true) }
        (.strV "job-1".toList) =
      getResults ⟨some "sample-bucket".toList, none, none⟩
        { headOutput := .ok (some "t1") 5 "e1", headFailure := .clientError "404" "",
          getOutput := .body (.jsonBody true true), getFailure := .body (.jsonBody true true) }
        (.strV "job-1".toList)) ∧
    (getResults ⟨some "sample-bucket".toList, none, none⟩
        { headOutput := .ok (some "t1") 5 "e1", headFailure := .ok (some "t2") 7 "e2",
          getOutput := .body (.jsonBody true true), getFailure := .body (.jsonBody true true) }
        (.strV "job-1".toList)).resp.dataStatus = some "completed" ∧
    (getResults ⟨some "sample-bucket".toList, none, none⟩
        { headOutput := .ok (some "t1") 5 "e1", headFailure := .clientError "404" "",
          getOutput := .clientError "404" "gone", getFailure := .body (.jsonBody true true) }
        (.strV "job-1".toList)).resp.errorCode = some "RESULT_RETRIEVAL_ERROR" := by
  refine ⟨?_, ?_, ?_⟩ <;> decide

/-- C3 amended: a transient store error on the output-object probe
(service unavailable, throttling, connection failure) is classified as
retryable and the caller is told to retry after a fixed 30-second backoff,
but `get_results` returns this error immediately: the failure object is
not probed (nothing in the output depends on it). -/
theorem transient_probe_short_circuits (cfg : GRConfig) (env : S3Env) (id b : List Char)
    (hid : ¬ stripWs id = []) (hs3 : startsWithS3 id = false)
    (hb : cfg.envBucket = some b) (hb0 : ¬ b = [])
    (hcv : (validateS3Configuration b defaultOutputPfx
      (cfg.envFailurePfx.getD defaultFailurePfx)).isValid = true)
    (hci : env.clientInit = none)
    (hba : env.bucketAccess = .ok)
    (ht : transientHead env.headOutput = true) :
    (getResults cfg env (.strV id)).resp.success = false ∧
    (getResults cfg env (.strV id)).resp.retrySuggested = true ∧
    (getResults cfg env (.strV id)).resp.retryAfterSeconds = some 30 ∧
    ((getResults cfg env (.strV id)).resp.errorCode = some "S3_SERVICE_UNAVAILABLE" ∨
     (getResults cfg env (.strV id)).resp.errorCode = some "BOTO_CONNECTION_ERROR") ∧
    (∀ hf gf, getResults cfg { env with headFailure := hf, getFailure := gf } (.strV id) =
        getResults cfg env (.strV id)) := by
  have hstage := getResults_stage cfg env id b hid hs3 hb hb0 hcv hci hba
  have hrs : checkS3ObjectExists env.headOutput =
      (⟨false, some "S3_SERVICE_UNAVAILABLE", some "S3 service temporarily unavailable",
        none, 0, ""⟩, [.warnL "head_service_issue"]) ∨
      checkS3ObjectExists env.headOutput =
      (⟨false, some "BOTO_CONNECTION_ERROR", some "Failed to connect to S3 service",
        none, 0, ""⟩, [.errL "head_botocore_error"]) := by
    rcases hE : env.headOutput with _ | ⟨c, m⟩ | m | m
    · rw [hE] at ht; simp [transientHead] at ht
    · rw [hE] at ht
      simp only [transientHead, Bool.or_eq_true, decide_eq_true_eq] at ht
      left
      rcases ht with (h | h) | h <;> simp [checkS3ObjectExists, h]
    · right; simp [checkS3ObjectExists]
    · rw [hE] at ht; simp [transientHead] at ht
  have hindep : ∀ hf gf,
      getResults cfg { env with headFailure := hf, getFailure := gf } (.strV id) =
        getResults cfg env (.strV id) := by
    intro hf gf
    have hstage' := getResults_stage cfg { env with headFailure := hf, getFailure := gf } id b
      hid hs3 hb hb0 hcv (by simpa using hci) (by simpa using hba)
    rw [hstage, hstage']
    rcases hrs with h | h <;>
      simp [grProbe, h, grErr, prependLogs, grTransCodes, grCritCodes]
  rcases hrs with h | h
  · refine ⟨?_, ?_, ?_, Or.inl ?_, hindep⟩ <;>
      rw [hstage] <;> simp [grProbe, h, grErr, prependLogs, grTransCodes, grCritCodes]
  · refine ⟨?_, ?_, ?_, Or.inr ?_, hindep⟩ <;>
      rw [hstage] <;> simp [grProbe, h, grErr, prependLogs, grTransCodes, grCritCodes]

/-- C3 counterexample: with a throttled output probe and an existing
failure object, `get_results` returns the retryable error immediately and
its full output is identical to the run without any failure object, so
the failure object was not probed. -/
theorem transient_probe_counterexample :
    (getResults ⟨some "sample-bucket".toList, none, none⟩
        { headOutput := .clientError "ServiceUnavailable" "m",
          headFailure := .ok (some "t2") 7 "e2",
          getFailure := .body (.jsonBody true true) }
        (.strV "job-1".toList)).resp.errorCode = some "S3_SERVICE_UNAVAILABLE" ∧
    getResults ⟨some "sample-bucket".toList, none, none⟩
        { headOutput := .clientError "ServiceUnavailable" "m",
          headFailure := .ok (some "t2") 7 "e2",
          getFailure := .body (.jsonBody true true) }
        (.strV "job-1".toList) =
      getResults ⟨some "sample-bucket".toList, none, none⟩
        { headOutput := .clientError "ServiceUnavailable" "m",
          headFailure := .clientError "404" "",
          getFailure := .body (.jsonBody true true) }
        (.strV "job-1".toList) := by
  refine ⟨?_, ?_⟩ <;> decide

/-- Witness for C1 at a concrete environment. -/
theorem output_takes_precedence_check :
    (getResults ⟨some "sample-bucket".toList, none, none⟩
        { headOutput := .ok (some "t1") 5 "e1", headFailure := .clientError "404" "",
          getOutput := .body (.jsonBody true true) }
        (.strV "job-1".toList)).resp.success = true ∧
    (getResults ⟨some "sample-bucket".toList, none, none⟩
        { headOutput := .ok (some "t1") 5 "e1", headFailure := .clientError "404" "",
          getOutput := .body (.jsonBody true true) }
        (.strV "job-1".toList)).resp.dataStatus = some "completed" ∧
    (getResults ⟨some "sample-bucket".toList, none, none⟩
        { headOutput := .ok (some "t1") 5 "e1", headFailure := .clientError "404" "",
          getOutput := .body (.jsonBody true true) }
        (.strV "job-1".toList)).resp.results = some RData.parsed :=
  (output_takes_precedence _ _ _ _ _ _ _ (by decide) (by decide) rfl (by decide)
      (by decide) rfl rfl rfl).2 RData.parsed [] rfl

/-- Witness for C3 at a concrete environment. -/
theorem transient_probe_short_circuits_check :
    (getResults ⟨some "sample-bucket".toList, none, none⟩
        { headOutput := .botoCoreError "x", headFailure := .clientError "404" "" }
        (.strV "job-1".toList)).resp.retrySuggested = true :=
  (transient_probe_short_circuits _ _ _ _ (by decide) (by decide) rfl (by decide)
      (by decide) rfl rfl (by decide)).2.1

/-- C6: evidence of the divergence: with output prefix and failure prefix
both configured as `results` (which collide), `get_results` does not
reject the configuration — it proceeds to the store probes and reports
job state — because the call site validates the literal default output
location name instead of the configured one; the validator itself, given
the real prefixes, does reject. -/
theorem colliding_config_not_rejected :
    (validateS3Configuration "sample-bucket".toList "results".toList "results".toList).isValid
      = false ∧
    (getResults ⟨some "sample-bucket".toList, some "results".toList, some "results".toList⟩
        { headOutput := .clientError "404" "", headFailure := .clientError "404" "" }
        (.strV "job-1".toList)).resp.success = true ∧
    (getResults ⟨some "sample-bucket".toList, some "results".toList, some "results".toList⟩
        { headOutput := .clientError "404" "", headFailure := .clientError "404" "" }
        (.strV "job-1".toList)).resp.dataStatus = some "in_progress" ∧
    (getResults ⟨some "sample-bucket".toList, some "results".toList, some "results".toList⟩
        { headOutput := .ok (some "t") 5 "e", headFailure := .clientError "404" "",
          getOutput := .body (.jsonBody true true) }
        (.strV "job-1".toList)).resp.dataStatus = some "completed" := by
  refine ⟨?_, ?_, ?_, ?_⟩ <;> decide

/-- C7 amended: bucket-name validation accepts exactly the strings of
length 3 to 63 that — either as given, or after removing one trailing
newline (which Python's `$` permits) — have at least two characters, a
lowercase alphanumeric first and last character, and lowercase
alphanumerics or hyphens in between, consecutive hyphens included; and a
name violating this (such as `AB`) is rejected as a configuration error
for every store environment, before any store call can influence the
outcome. -/
theorem bucket_validation_amended :
    (∀ b : List Char, bucketNameErrors b = [] ↔
      (3 ≤ b.length ∧ b.length ≤ 63 ∧
        (coreNameOk b = true ∨ (b.getLast? = some '\n' ∧ coreNameOk b.dropLast = true)))) ∧
    (∀ env : S3Env, (getResults ⟨some ['A', 'B'], none, none⟩ env
        (.strV "job-1".toList)).resp.errorCode = some "S3_CONFIGURATION_ERROR") := by
  constructor
  · intro b
    rw [← matchBucketRe_eq b]
    constructor
    · intro he
      by_cases h1 : b = []
      · rw [h1] at he; simp [bucketNameErrors] at he
      · by_cases h2 : b.length < 3 ∨ b.length > 63
        · simp [bucketNameErrors, h1, h2] at he
        · by_cases h3 : matchBucketRe b = true
          · exact ⟨by omega, by omega, h3⟩
          · simp [bucketNameErrors, h1, h2, h3] at he
    · rintro ⟨ha, hb', hm⟩
      have h1 : ¬ b = [] := by
        intro hh
        rw [hh] at ha
        simp at ha
      have h2 : ¬ (b.length < 3 ∨ b.length > 63) := by omega
      simp [bucketNameErrors, h1, h2, hm]
  · intro env
    rfl

/-- C7 counterexample: the name `a--b` contains consecutive hyphens and
the 3-character name `ab` plus a trailing newline ends in a
non-alphanumeric character, both of which the claimed pattern rejects,
yet the code's validation accepts both. -/
theorem bucket_validation_counterexample :
    bucketNameErrors "a--b".toList = [] ∧ specBucketName "a--b".toList = false ∧
    bucketNameErrors "ab\n".toList = [] ∧ specBucketName "ab\n".toList = false := by
  refine ⟨?_, ?_, ?_, ?_⟩ <;> decide

/-- C9: with a maximum of three attempts and a retriever that always
reports in-progress, the polling loop makes exactly three retrieval calls
and ends in the explicit timed-out outcome. -/
theorem polling_three_attempts_timeout (retrieve : Nat → LoopResp)
    (h : ∀ n, retrieve n = .successData (some "in_progress")) :
    pollLoop retrieve 3 = (.timedOut, 3) := by
  have step : ∀ a c, a ≤ 3 → pollFrom retrieve 3 a c = pollFrom retrieve 3 (a + 1) (c + 1) := by
    intro a c ha
    rw [pollFrom.eq_def]
    simp [h a, show ¬ 3 < a from by omega]
  unfold pollLoop
  rw [step 1 0 (by omega), step 2 1 (by omega), step 3 2 (by omega), pollFrom.eq_def]
  simp

/-- Witness for C9 with the constant in-progress retriever. -/
theorem polling_three_attempts_timeout_check :
    pollLoop (fun _ => .successData (some "in_progress")) 3 = (.timedOut, 3) :=
  polling_three_attempts_timeout _ (fun _ => rfl)

lemma valid_seq_strip_ne (s : List Char)
    (h : (validateAminoAcidSequence (.str s)).isValid = true) : ¬ stripWs s = [] := by
  intro hw
  by_cases hs : s = []
  · rw [hs] at h
    simp [validateAminoAcidSequence] at h
  · have hc : upperL (stripWs s) = [] := by rw [hw]; rfl
    simp [validateAminoAcidSequence, if_neg hs, hc, sortedSet, sortChars] at h

lemma ieSubmit_success (cfg : IEConfig) (env : IEEnv) (raw : SeqInput) (gid : List Char) :
    (ieSubmit cfg env raw gid).success = true →
    ∃ iid oloc, env.invokeAsync = .ok (some iid) oloc ∧ ¬ iid = [] := by
  intro h
  unfold ieSubmit at h
  by_cases hv : (validateAminoAcidSequence raw).isValid = true
  swap
  · rw [if_pos hv] at h
    simp at h
  · rw [if_neg (not_not_intro hv)] at h
    by_cases h1 : cfg.envEndpoint.getD [] = []
    · rw [if_pos h1] at h
      simp at h
    · rw [if_neg h1] at h
      by_cases h2 : cfg.envBucket.getD [] = []
      · rw [if_pos h2] at h
        simp at h
      · rw [if_neg h2] at h
        rcases hA : env.clientInit with _ | v <;> simp only [hA] at h
        swap
        · simp at h
        · rcases hP : env.putInput with _ | ⟨pc, pm⟩ | pm <;> simp only [hP] at h
          · rcases hI : env.invokeAsync with ⟨iid, oloc⟩ | ⟨ic, im⟩ | im | im <;>
              simp only [hI] at h
            · rcases iid with _ | i
              · split at h
                · simp at h
                · simp at h
              · split at h
                · simp at h
                · by_cases hi : i = []
                  · simp [hi] at h
                  · exact ⟨i, oloc, rfl, hi⟩
            · split_ifs at h
            · simp at h
            · simp at h
          · simp at h
          · simp at h

/-- C8 amended: when the backend's response lacks the correlation
identifier, the submitter never returns success; it returns the distinct
protocol-violation error `SAGEMAKER_RESPONSE_ERROR` provided the effective
output location (the reported one, or the locally constructed default when
absent) contains a slash followed by a later `.out` with no newline
between them, so that the output-id extraction succeeds — otherwise the
extraction raises first and the generic `INVOCATION_ERROR` is returned;
and in general a success envelope is only ever returned when the backend
supplied a non-empty `InferenceId`. -/
theorem submit_requires_correlation_id (cfg : IEConfig) (env : IEEnv) (s gid : List Char)
    (oloc : Option (List Char))
    (hsv : (validateAminoAcidSequence (.str s)).isValid = true)
    (hep : ¬ cfg.envEndpoint.getD [] = [])
    (hbu : ¬ cfg.envBucket.getD [] = [])
    (hci : env.clientInit = none)
    (hput : env.putInput = .ok)
    (hresp : env.invokeAsync = .ok none oloc)
    (hm : (reSearchDotOut (oloc.getD (mkS3Uri (cfg.envBucket.getD [])
        (resolveOutputKey (cfg.envOutputPfx.getD defaultOutputPfx) gid)))).isSome = true) :
    ((invokeEndpoint cfg env (.strV s) gid).success = false ∧
     (invokeEndpoint cfg env (.strV s) gid).errorCode = some "SAGEMAKER_RESPONSE_ERROR") ∧
    (∀ cfg' env' ev' gid', (invokeEndpoint cfg' env' ev' gid').success = true →
      ∃ iid oloc', env'.invokeAsync = .ok (some iid) oloc' ∧ ¬ iid = []) := by
  constructor
  · have hstr := valid_seq_strip_ne s hsv
    obtain ⟨oid, ho⟩ := Option.isSome_iff_exists.mp hm
    have he : invokeEndpoint cfg env (.strV s) gid =
        { success := false, errorCode := some "SAGEMAKER_RESPONSE_ERROR",
          message := "SageMaker response missing inference ID" } := by
      simp only [invokeEndpoint]
      rw [if_neg hstr]
      simp only [ieSubmit]
      rw [if_neg (not_not_intro hsv), if_neg hep, if_neg hbu, hci, hput, hresp]
      simp [ho]
    rw [he]
    exact ⟨rfl, rfl⟩
  · intro cfg' env' ev' gid' h
    cases ev' with
    | absent => simp [invokeEndpoint] at h
    | nullV => simp [invokeEndpoint] at h
    | nonStrV => exact ieSubmit_success _ _ _ _ h
    | strV t =>
      simp only [invokeEndpoint] at h
      by_cases h1 : stripWs t = []
      · rw [if_pos h1] at h
        simp at h
      · rw [if_neg h1] at h
        exact ieSubmit_success _ _ _ _ h

/-- Witness for C8 at a concrete environment (`OutputLocation` absent, so
the default location is used and matches the extraction pattern). -/
theorem submit_requires_correlation_id_check :
    (invokeEndpoint ⟨some "ep".toList, some "sample-bucket".toList, none, none⟩
        { invokeAsync := .ok none none } (.strV "MKTV".toList) "gid".toList).errorCode
      = some "SAGEMAKER_RESPONSE_ERROR" :=
  (submit_requires_correlation_id _ _ _ _ none (by decide) (by decide) (by decide) rfl rfl rfl
    (by decide)).1.2

/-- C8 counterexample: the backend omits `InferenceId` but reports an
output location in which the extraction pattern does not occur — either
because it has no slash at all (`zzz`), or because the only candidate
capture spans a newline (`a/b<newline>.out`, where Python's `.` does not
match the newline); the extraction raises before the missing-id check, so
the caller receives the generic `INVOCATION_ERROR`, not the distinct
protocol-violation error. -/
theorem submit_missing_id_counterexample :
    (invokeEndpoint ⟨some "ep".toList, some "sample-bucket".toList, none, none⟩
        { invokeAsync := .ok none (some "zzz".toList) }
        (.strV "MKTV".toList) "gid".toList).success = false ∧
    (invokeEndpoint ⟨some "ep".toList, some "sample-bucket".toList, none, none⟩
        { invokeAsync := .ok none (some "zzz".toList) }
        (.strV "MKTV".toList) "gid".toList).errorCode = some "INVOCATION_ERROR" ∧
    ¬ (invokeEndpoint ⟨some "ep".toList, some "sample-bucket".toList, none, none⟩
        { invokeAsync := .ok none (some "zzz".toList) }
        (.strV "MKTV".toList) "gid".toList).errorCode = some "SAGEMAKER_RESPONSE_ERROR" ∧
    (invokeEndpoint ⟨some "ep".toList, some "sample-bucket".toList, none, none⟩
        { invokeAsync := .ok none (some "a/b\n.out".toList) }
        (.strV "MKTV".toList) "gid".toList).errorCode = some "INVOCATION_ERROR" := by
  refine ⟨?_, ?_, ?_, ?_⟩ <;> decide

lemma failure_details_total (g : GetOutcome) :
    ∃ d l, retrieveFailureDetailsE g = (Except.ok d, l) := by
  cases g with
  | body p =>
    cases p with
    | emptyBody => exact ⟨_, _, rfl⟩
    | jsonBody t d =>
      simp only [retrieveFailureDetailsE]
      split_ifs <;> exact ⟨_, _, rfl⟩
    | textBody => exact ⟨_, _, rfl⟩
  | clientError c m =>
    simp only [retrieveFailureDetailsE]
    split_ifs <;> exact ⟨_, _, rfl⟩
  | botoCoreError m => exact ⟨_, _, rfl⟩
  | decodeError m => exact ⟨_, _, rfl⟩
  | otherExn m => exact ⟨_, _, rfl⟩

lemma prependLogs_resp (l : List LogEntry) (o : GROut) : (prependLogs l o).resp = o.resp := rfl

lemma grOutputExistsBranch_no_fre (env : S3Env) (b k oid : List Char) (rs : CheckResult) :
    ¬ (grOutputExistsBranch env b k oid rs).resp.errorCode = some "FAILURE_RETRIEVAL_ERROR" := by
  rcases h : retrieveS3Results env.getOutput with ⟨e | r, l⟩ <;>
    simp [grOutputExistsBranch, h, grErr]

lemma grFailureBranch_no_fre (env : S3Env) (b k fk oid : List Char) (rs : CheckResult) :
    ¬ (grFailureBranch env b k fk oid rs).resp.errorCode = some "FAILURE_RETRIEVAL_ERROR" := by
  obtain ⟨d, l, hd⟩ := failure_details_total env.getFailure
  simp only [grFailureBranch, hd]
  split <;> simp [grErr]

lemma grProbe_no_fre (env : S3Env) (b k fk oid : List Char) :
    ¬ (grProbe env b k fk oid).resp.errorCode = some "FAILURE_RETRIEVAL_ERROR" := by
  rcases hc : (checkS3ObjectExists env.headOutput).1.errCode with _ | c
  · simp only [grProbe, hc]
    simp only [Bool.false_eq_true, if_false]
    split
    · exact grOutputExistsBranch_no_fre env b k oid _
    · exact grFailureBranch_no_fre env b k fk oid _
  · simp only [grProbe, hc]
    by_cases h1 : grCritCodes.contains c = true
    · rw [if_pos h1]
      rw [List.contains_iff_exists_mem_beq] at h1
      obtain ⟨x, hx, he⟩ := h1
      rw [beq_iff_eq] at he
      subst he
      simp only [grErr]
      simp only [grCritCodes, List.mem_cons, List.not_mem_nil, or_false] at hx
      rcases hx with h | h | h <;> subst h <;> simp
    · rw [if_neg h1]
      by_cases h2 : grTransCodes.contains c = true
      · rw [if_pos h2]
        rw [List.contains_iff_exists_mem_beq] at h2
        obtain ⟨x, hx, he⟩ := h2
        rw [beq_iff_eq] at he
        subst he
        simp only [grErr]
        simp only [grTransCodes, List.mem_cons, List.not_mem_nil, or_false] at hx
        rcases hx with h | h <;> subst h <;> simp
      · rw [if_neg h2]
        split
        · exact grOutputExistsBranch_no_fre env b k oid _
        · exact grFailureBranch_no_fre env b k fk oid _

lemma validateS3BucketAccess_code (o : AccessOutcome) :
    ¬ (validateS3BucketAccess o).errCode = some "FAILURE_RETRIEVAL_ERROR" := by
  cases o with
  | ok => simp [validateS3BucketAccess]
  | clientError c m =>
    simp only [validateS3BucketAccess]
    split_ifs <;> simp
  | botoCoreError m => simp [validateS3BucketAccess]
  | otherExn m => simp [validateS3BucketAccess]

lemma grConfigAndProbe_no_fre (cfg : GRConfig) (env : S3Env) (b k oid : List Char) :
    ¬ (grConfigAndProbe cfg env b k oid).resp.errorCode = some "FAILURE_RETRIEVAL_ERROR" := by
  simp only [grConfigAndProbe]
  by_cases h1 : (validateS3Configuration b defaultOutputPfx
      (cfg.envFailurePfx.getD defaultFailurePfx)).isValid = true
  · rw [if_neg (not_not_intro h1)]
    rcases hA : env.clientInit with _ | v <;> simp only [hA]
    · by_cases h2 : (validateS3BucketAccess env.bucketAccess).accessible = true
      · rw [if_neg (not_not_intro h2)]
        exact grProbe_no_fre env b k _ oid
      · rw [if_pos h2]
        simp only [grErr]
        simpa using validateS3BucketAccess_code env.bucketAccess
    · simp [grErr]
  · rw [if_pos h1]
    simp [grErr]

lemma grMainStr_no_fre (cfg : GRConfig) (env : S3Env) (s : List Char) :
    ¬ (grMainStr cfg env s).resp.errorCode = some "FAILURE_RETRIEVAL_ERROR" := by
  simp only [grMainStr]
  by_cases h1 : startsWithS3 s = true
  · rw [if_pos h1]
    rcases hsp : splitOnceSlash (replaceS3Scheme s) with _ | ⟨b2, k2⟩ <;> simp only [hsp]
    · simp [grErr]
    · exact grConfigAndProbe_no_fre cfg env b2 k2 _
  · rw [if_neg h1]
    by_cases h2 : cfg.envBucket.getD [] = []
    · rw [if_pos h2]
      simp [grErr]
    · rw [if_neg h2]
      exact grConfigAndProbe_no_fre cfg env _ _ _

/-- C10: the failure-details retrieval is total — every store outcome it
distinguishes yields a structured diagnostic, never a raised error — and
consequently `get_results` can never return the `FAILURE_RETRIEVAL_ERROR`
code guarding that branch: a detected failure object always produces a
failed result carrying diagnostics. -/
theorem failure_retrieval_total :
    (∀ g : GetOutcome, ∃ d l, retrieveFailureDetailsE g = (Except.ok d, l)) ∧
    (∀ (cfg : GRConfig) (env : S3Env) (ev : FieldVal),
      ¬ (getResults cfg env ev).resp.errorCode = some "FAILURE_RETRIEVAL_ERROR") := by
  refine ⟨failure_details_total, ?_⟩
  intro cfg env ev
  cases ev with
  | absent => simp [getResults]
  | nullV => simp [getResults]
  | nonStrV => simp [getResults, grErr, prependLogs]
  | strV s =>
    simp only [getResults]
    by_cases h1 : stripWs s = []
    · rw [if_pos h1]
      simp
    · rw [if_neg h1]
      exact grMainStr_no_fre cfg env s

/-- Witness for C7: a well-formed name is accepted via the amended
characterization. -/
theorem bucket_validation_amended_check :
    bucketNameErrors "sample-bucket".toList = [] :=
  (bucket_validation_amended.1 "sample-bucket".toList).mpr
    ⟨by decide, by decide, Or.inl (by decide)⟩

/-- Witness for C10: the totality conjunct applied at a connection
failure. -/
theorem failure_retrieval_total_check :
    ∃ d l, retrieveFailureDetailsE (GetOutcome.botoCoreError "x") = (Except.ok d, l) :=
  failure_retrieval_total.1 (GetOutcome.botoCoreError "x")

end VepSpec
